import Mathlib

/-!
Verification of the Target Monitoring & Purchase Execution Engine of the
Gifts-TG-Bot repository, via a shallow embedding of the relevant Python
modules (`services/balance.py`, `services/buy_userbot.py`,
`services/gifts_userbot.py`, `services/gifts_manager.py`, `main.py`).

Conventions of the embedding:
- Python `dict`-based configuration is a `Config` structure; optional or
  falsy configuration values (`None`, `0`, empty string) are `Option`
  fields with `none` standing for absent-or-falsy, mirroring the source's
  truthiness tests.
- Python integers are `Int`; the `int(float)` conversions of the source
  are points where the embedded value is already integral.
- Network effects (Pyrogram calls) are inputs: a fetched balance is an
  `Option Int` (`none` = the call raised), the lazy listing stream of
  `search_gifts_for_resale` is a `List ResaleGift` in the order the
  generator yields it, and the outcome of each `send_resold_gift` attempt
  is an `AttemptObs`.
- `await save_config(...)` is modelled by returning the updated `Config`.
-/

namespace GiftsBot

/-- The USERBOT section of `config.json` as read by the balance and buy
modules: API_ID/API_HASH/PHONE/USER_ID (with `none` for absent-or-falsy),
the cached BALANCE, and the ENABLED flag. -/
structure UserbotConfig where
  apiId : Option Nat
  apiHash : Option String
  phone : Option String
  userId : Option Nat
  balance : Int
  enabled : Bool
deriving DecidableEq

/-- One TARGETS entry: GIFT_ID (absent-or-falsy = `none`), MAX_PRICE
(read with default 0 in the source), GIFT_NAME, ENABLED (default True). -/
structure Target where
  giftId : Option Nat
  maxPrice : Int
  giftName : String
  enabled : Bool
deriving DecidableEq

/-- The slice of `config.json` used by the core: system ACTIVE flag,
USERBOT section, recipient (TARGET_USER_ID / TARGET_CHAT_ID, `none` for
absent-or-falsy), and the TARGETS list. -/
structure Config where
  active : Bool
  userbot : UserbotConfig
  targetUserId : Option Int
  targetChatId : Option String
  targets : List Target
deriving DecidableEq

/-- Sets the ACTIVE flag (`config["ACTIVE"] = b`). -/
def set_active (config : Config) (b : Bool) : Config :=
  { config with active := b }

/-- Persists a balance value (`config["USERBOT"]["BALANCE"] = b`). -/
def set_balance (config : Config) (b : Int) : Config :=
  { config with userbot := { config.userbot with balance := b } }

/-- Disables the sender (`config["USERBOT"]["ENABLED"] = False`). -/
def disable_userbot (config : Config) : Config :=
  { config with userbot := { config.userbot with enabled := false } }

/-- `services/balance.py`, `change_balance_userbot` (lines 165-195):
reads the cached BALANCE (default 0), clamps `current + delta` at zero,
persists and returns the new balance. -/
def change_balance_userbot (delta : Int) (config : Config) : Int × Config :=
  let current := config.userbot.balance
  let new_balance := max 0 (current + delta)
  (new_balance, set_balance config new_balance)

/-- `refresh_balance`, lines 107-114: the effective user id is the
argument when given, else USER_ID from the config. -/
def resolve_user_id (user_id : Option Nat) (config : Config) : Option Nat :=
  match user_id with
  | some u => some u
  | none => config.userbot.userId

/-- `refresh_balance`, lines 117-122: `has_session` is the truthiness of
API_ID and API_HASH and PHONE. -/
def has_session (u : UserbotConfig) : Bool :=
  u.apiId.isSome && u.apiHash.isSome && u.phone.isSome

/-- `services/balance.py`, `refresh_balance` (lines 95-162).
`userbotActive` is `is_userbot_active(user_id)`; `fetch` is the result of
`get_sender_stars_balance` (`none` = it raised). Returns the reported
balance and the persisted configuration. -/
def refresh_balance (userbotActive : Bool) (fetch : Option Int)
    (user_id : Option Nat) (config : Config) : Int × Config :=
  match resolve_user_id user_id config with
  | none => (0, set_balance config 0)
  | some _ =>
    if has_session config.userbot = false then (0, set_balance config 0)
    else if userbotActive = false then (0, set_balance config 0)
    else
      match fetch with
      | some b => (b, set_balance config b)
      | none => (0, set_balance config 0)

/-- Outcome classes of the balance-delta check of
`services/buy_userbot.py`, lines 149-193: the tolerance branch, the
positive-but-unexpected branch, and the unchanged-balance branch. -/
inductive PurchaseClass where
  | success
  | successWarning
  | failure
deriving DecidableEq

/-- `services/buy_userbot.py`, lines 153/171/186: classification of the
observed balance difference against the expected price.
`abs(balance_diff - expected_price) <= 1` is success; otherwise
`balance_diff > 0` is success-with-warning; otherwise failure. -/
def classify_balance_diff (balance_diff expected_price : Int) : PurchaseClass :=
  if (balance_diff - expected_price).natAbs ≤ 1 then .success
  else if balance_diff > 0 then .successWarning
  else .failure

/-- What one iteration of the attempt loop of `buy_resold_gift_userbot`
observes from the outside world:
`purchased ba` = `send_resold_gift` returned and the post-purchase balance
read back as `ba`; `balanceReadFailed` = the post-purchase balance fetch
raised (line 145, `continue`); `fatalError` = BadRequest / Forbidden /
AuthKeyUnregistered (return False); `transientError` = FloodWait /
RPCError / other exception (sleep and next attempt). -/
inductive AttemptObs where
  | purchased (balance_after : Int)
  | balanceReadFailed
  | fatalError
  | transientError
deriving DecidableEq

/-- Result of the modelled `buy_resold_gift_userbot`: the returned
boolean, the number of `send_resold_gift` purchase calls issued, and the
configuration as persisted by the function's side effects. -/
structure BuyResult where
  success : Bool
  purchaseCalls : Nat
  config : Config
deriving DecidableEq

/-- `services/buy_userbot.py`, lines 119-247: the attempt loop. Each list
element is one attempt (the list length plays the role of `retries`).
`balance_before` is fixed before the loop (line 112); on a success the
config balance is updated by `change_balance_userbot` with delta
`balance_after - cached_balance` (lines 166-167 and 181-182); a zero or
negative delta falls through to the next attempt. -/
def buy_attempt_loop (expected_price balance_before cached_balance : Int)
    (config : Config) : List AttemptObs → BuyResult
  | [] => ⟨false, 0, config⟩
  | obs :: rest =>
    match obs with
    | .purchased balance_after =>
      match classify_balance_diff (balance_before - balance_after) expected_price with
      | .success =>
        ⟨true, 1, (change_balance_userbot (balance_after - cached_balance) config).2⟩
      | .successWarning =>
        ⟨true, 1, (change_balance_userbot (balance_after - cached_balance) config).2⟩
      | .failure =>
        let r := buy_attempt_loop expected_price balance_before cached_balance config rest
        ⟨r.success, r.purchaseCalls + 1, r.config⟩
    | .balanceReadFailed =>
      let r := buy_attempt_loop expected_price balance_before cached_balance config rest
      ⟨r.success, r.purchaseCalls + 1, r.config⟩
    | .fatalError => ⟨false, 1, config⟩
    | .transientError =>
      let r := buy_attempt_loop expected_price balance_before cached_balance config rest
      ⟨r.success, r.purchaseCalls + 1, r.config⟩

/-- `services/buy_userbot.py`, lines 99-101: Python `lstrip('@')` on the
channel username. -/
def strip_at (s : String) : String :=
  String.mk (s.data.dropWhile (fun c => c == '@'))

/-- `services/buy_userbot.py`, lines 99-105: the API recipient is the
user id when only it is set, the stripped channel username when only it
is set, and `None` (invalid) otherwise. -/
def compute_recipient (target_user_id : Option Int) (target_chat_id : Option String) :
    Option (Int ⊕ String) :=
  match target_user_id, target_chat_id with
  | some u, none => some (Sum.inl u)
  | none, some c => some (Sum.inr (strip_at c))
  | _, _ => none

/-- `services/buy_userbot.py`, `buy_resold_gift_userbot` (lines 36-247).
`clientOk` is whether `get_userbot_client` returned a client;
`balance_before` is the pre-purchase balance fetch (`none` = it raised);
`obs` drives the attempt loop. The cached-balance pre-check (lines 70-86)
disables the sender and returns False before any purchase call. -/
def buy_resold_gift_userbot (config : Config) (clientOk : Bool)
    (target_user_id : Option Int) (target_chat_id : Option String)
    (expected_price : Int) (balance_before : Option Int)
    (obs : List AttemptObs) : BuyResult :=
  let cached_balance := config.userbot.balance
  if cached_balance < expected_price then
    ⟨false, 0, disable_userbot config⟩
  else if clientOk = false then ⟨false, 0, config⟩
  else if compute_recipient target_user_id target_chat_id = none then ⟨false, 0, config⟩
  else
    match balance_before with
    | none => ⟨false, 0, config⟩
    | some bb => buy_attempt_loop expected_price bb cached_balance config obs

/-- A normalized resale listing as produced by `normalize_resale_gift`
(`services/gifts_userbot.py`, lines 31-70): the star price (0 when the
platform gave none), the `available_for_stars` flag
(`star_price is not None and not resale_ton_only`), name and link. -/
structure ResaleGift where
  price : Int
  available_for_stars : Bool
  name : String
  link : String
deriving DecidableEq

/-- The `async for` loop of `find_cheapest_gift_by_id`
(`services/gifts_userbot.py`, lines 180-209) over the price-ordered
listing stream. Returns the result together with `checked`, the number of
listings inspected. The first listing that is available for stars with
price > 0 decides the outcome: it is returned when within `max_price`
(or when no limit is given), and the search returns `None` immediately
when it exceeds the limit. -/
def search_loop (max_price : Option Int) : List ResaleGift → Option ResaleGift × Nat
  | [] => (none, 0)
  | g :: rest =>
    if g.available_for_stars = true ∧ g.price > 0 then
      match max_price with
      | none => (some g, 1)
      | some mp => if g.price ≤ mp then (some g, 1) else (none, 1)
    else
      let r := search_loop max_price rest
      (r.1, r.2 + 1)

/-- `services/gifts_userbot.py`, `find_cheapest_gift_by_id`
(lines 141-213). `userbotActive` = `is_userbot_active`, `enabled` =
USERBOT.ENABLED in the config, `clientOk` = a client was obtained;
`listings` is the stream yielded by `search_gifts_for_resale` ordered by
price ascending. -/
def find_cheapest_gift_by_id (userbotActive enabled clientOk : Bool)
    (max_price : Option Int) (listings : List ResaleGift) : Option ResaleGift :=
  if userbotActive = false then none
  else if enabled = false then none
  else if clientOk = false then none
  else (search_loop max_price listings).1

/-- The `target_info` snapshot stored in a cache entry
(`services/gifts_manager.py`, lines 70-75). -/
structure TargetInfo where
  giftId : Nat
  giftName : String
  maxPrice : Int
deriving DecidableEq

/-- One entry of `targets_cache` (`services/gifts_manager.py`,
lines 68-76): the found listing or `None`, the update timestamp, and the
target snapshot. -/
structure CacheEntry where
  gift_data : Option ResaleGift
  last_update : Nat
  target_info : TargetInfo
deriving DecidableEq

/-- The `targets_cache` dictionary, keyed by target index. -/
def TargetsCache : Type := Nat → Option CacheEntry

/-- `services/gifts_manager.py`, `update_target_cache` (lines 35-91):
for a target with a GIFT_ID, runs `find_cheapest_gift_by_id` with the
target's MAX_PRICE and overwrites the cache entry at `target_index` with
the result plus the target snapshot; a target without GIFT_ID leaves the
cache untouched and returns `None`. Returns the new cache and the found
listing. -/
def update_target_cache (userbotActive enabled clientOk : Bool)
    (listings : List ResaleGift) (now : Nat) (cache : TargetsCache)
    (target_index : Nat) (target : Target) : TargetsCache × Option ResaleGift :=
  match target.giftId with
  | none => (cache, none)
  | some gid =>
    let gift_data :=
      find_cheapest_gift_by_id userbotActive enabled clientOk (some target.maxPrice) listings
    (fun i => if i = target_index then some ⟨gift_data, now, ⟨gid, target.giftName, target.maxPrice⟩⟩
              else cache i,
     gift_data)

/-- `clear_targets_cache` (`services/gifts_manager.py`, lines 257-266):
the cache becomes empty. -/
def clear_targets_cache : TargetsCache := fun _ => none

/-- The ceiling invariant of the listing cache: every entry with a
present listing has its price within the max price recorded in the
entry's own target snapshot. -/
def cache_invariant (cache : TargetsCache) : Prop :=
  ∀ i e g, cache i = some e → e.gift_data = some g → g.price ≤ e.target_info.maxPrice

/-- A cache candidate as enriched by `get_all_available_target_gifts`
(`services/gifts_manager.py`, lines 228-242) and consumed by the worker
loop of `main.py`: the listing fields plus the target snapshot fields. -/
structure TargetGift where
  target_index : Nat
  target_gift_name : String
  target_max_price : Int
  price : Int
  link : String
  name : String
deriving DecidableEq

/-- Character-level test that the second list starts with the first. -/
def starts_with_chars : List Char → List Char → Bool
  | [], _ => true
  | _ :: _, [] => false
  | p :: ps, c :: cs => p == c && starts_with_chars ps cs

/-- The required collectible-link shape (`services/buy_userbot.py`,
line 303): the link starts with the collectible URL stem. -/
def nft_link_ok (link : String) : Bool :=
  let p : String := "https://t.me/nft/"
  starts_with_chars p.data link.data

/-- `services/buy_userbot.py`, `validate_gift_purchase` (lines 250-314):
requires truthy link, price and name fields, a positive price within
`max_price`, exactly one of the two recipient settings, and the
collectible link shape. -/
def validate_gift_purchase (g : TargetGift) (target_user_id : Option Int)
    (target_chat_id : Option String) (max_price : Int) : Bool :=
  if g.link = "" ∨ g.price = 0 ∨ g.name = "" then false
  else if g.price ≤ 0 then false
  else if g.price > max_price then false
  else if target_user_id = none ∧ target_chat_id = none then false
  else if target_user_id ≠ none ∧ target_chat_id ≠ none then false
  else if nft_link_ok g.link = false then false
  else true

/-- A candidate on which the worker loop of `main.py` (lines 265-311)
actually invokes `buy_resold_gift_userbot`: it passed the link check, the
price-ceiling check and `validate_gift_purchase`. -/
def candidate_attempted (g : TargetGift) (target_user_id : Option Int)
    (target_chat_id : Option String) : Prop :=
  g.link ≠ "" ∧ ¬ g.price > g.target_max_price ∧
    validate_gift_purchase g target_user_id target_chat_id g.target_max_price = true

instance (g : TargetGift) (tu : Option Int) (tc : Option String) :
    Decidable (candidate_attempted g tu tc) := by
  unfold candidate_attempted; infer_instance

/-- Outcome of the candidate loop of one Executor cycle (`main.py`,
lines 260-353): number of `buy_resold_gift_userbot` invocations
(purchase calls), number of success notifications sent, and the
`purchased_any` flag. -/
structure ScanResult where
  buyCalls : Nat
  notifications : Nat
  purchased_any : Bool
deriving DecidableEq

/-- The candidate loop of `gift_purchase_worker` (`main.py`,
lines 260-353). `buySucceeds i` is the outcome of the purchase attempted
at candidate position `i`. A candidate without a link, over the target
ceiling, or failing validation is skipped; a successful purchase notifies
and breaks out of the loop; a failed purchase moves on to the next
candidate. -/
def scan_candidates (buySucceeds : Nat → Bool) (target_user_id : Option Int)
    (target_chat_id : Option String) : List TargetGift → Nat → ScanResult
  | [], _ => ⟨0, 0, false⟩
  | g :: rest, i =>
    if g.link = "" then scan_candidates buySucceeds target_user_id target_chat_id rest (i + 1)
    else if g.price > g.target_max_price then
      scan_candidates buySucceeds target_user_id target_chat_id rest (i + 1)
    else if validate_gift_purchase g target_user_id target_chat_id g.target_max_price = false then
      scan_candidates buySucceeds target_user_id target_chat_id rest (i + 1)
    else if buySucceeds i then ⟨1, 1, true⟩
    else
      let r := scan_candidates buySucceeds target_user_id target_chat_id rest (i + 1)
      ⟨r.buyCalls + 1, r.notifications, r.purchased_any⟩

/-- Operator-facing notifications the Executor cycle can send. -/
inductive Notice where
  | senderInactive
  | recipientUnset
  | purchaseSuccess
  | insufficientBalance
deriving DecidableEq

/-- Whether the cycle `break`s out of the worker's `while True` loop or
`continue`s to the next cycle. -/
inductive CycleAction where
  | breakLoop
  | continueLoop
deriving DecidableEq

/-- Outcome of one Executor cycle: loop control, the configuration as
persisted on disk at the end of the cycle, the candidate-loop result,
whether the post-failure balance reconciliation ran, and the
notifications sent. -/
structure CycleResult where
  action : CycleAction
  config : Config
  scanRes : ScanResult
  reconciled : Bool
  notices : List Notice
deriving DecidableEq

/-- `main.py`, line 224: the ENABLED-filtered target list. -/
def enabled_targets (config : Config) : List Target :=
  config.targets.filter (fun t => t.enabled)

/-- `main.py`, line 370: `min(gift.get("price", 0) for gift in ...)`. -/
def min_price : List TargetGift → Int
  | [] => 0
  | g :: rest => rest.foldl (fun m x => min m x.price) g.price

/-- One cycle of `gift_purchase_worker` (`main.py`, lines 191-400).
Inputs besides the configuration: `userbotActive` =
`is_userbot_active(USER_ID)`; `available` = the cache scan
`get_all_available_target_gifts(USER_ID)`; `buySucceeds` = the purchase
outcomes; `fetchAfterSuccess` / `fetchReconcile` = the balance fetches
backing the `refresh_balance` calls at line 340 and line 362; `uid` =
USER_ID. The hard-stop branches persist `ACTIVE = False` on the cycle's
own config snapshot, as the source does. -/
def gift_purchase_cycle (config : Config) (userbotActive : Bool)
    (available : List TargetGift) (buySucceeds : Nat → Bool)
    (fetchAfterSuccess fetchReconcile : Option Int) (uid : Nat) : CycleResult :=
  if config.active = false then
    ⟨.breakLoop, config, ⟨0, 0, false⟩, false, []⟩
  else if userbotActive = false then
    ⟨.breakLoop, set_active config false, ⟨0, 0, false⟩, false, [.senderInactive]⟩
  else if enabled_targets config = [] then
    ⟨.continueLoop, config, ⟨0, 0, false⟩, false, []⟩
  else if config.targetUserId = none ∧ config.targetChatId = none then
    ⟨.breakLoop, set_active config false, ⟨0, 0, false⟩, false, [.recipientUnset]⟩
  else if available = [] then
    ⟨.continueLoop, config, ⟨0, 0, false⟩, false, []⟩
  else
    let s := scan_candidates buySucceeds config.targetUserId config.targetChatId available 0
    if s.purchased_any = true then
      ⟨.continueLoop, (refresh_balance userbotActive fetchAfterSuccess (some uid) config).2,
       s, false, List.replicate s.notifications Notice.purchaseSuccess⟩
    else
      let rb := refresh_balance userbotActive fetchReconcile (some uid) config
      if rb.1 < min_price available then
        ⟨.breakLoop, set_active config false, s, true,
         List.replicate s.notifications Notice.purchaseSuccess ++ [.insufficientBalance]⟩
      else
        ⟨.continueLoop, rb.2, s, true, List.replicate s.notifications Notice.purchaseSuccess⟩

/-- The supervisor's tracked task set (`main.py`, `_running_tasks`),
abstracted to task identifiers. Transitions: `start` = `start_workers`
passing its readiness checks (any already-running pair is stopped first,
then a fresh Poller/Executor pair is recorded, lines 144-153); `stop` =
`stop_workers` clearing the set (line 104); `done` = `task_done_callback`
discarding a finished task (lines 156-157). -/
inductive Reachable : Finset Nat → Prop
  | init : Reachable ∅
  | start (s : Finset Nat) (h : Reachable s) (a b : Nat) (hab : a ≠ b) : Reachable {a, b}
  | stop (s : Finset Nat) (h : Reachable s) : Reachable ∅
  | done (s : Finset Nat) (h : Reachable s) (t : Nat) : Reachable (s.erase t)

/-- A fully configured, active configuration with cached balance 100 and
one enabled target, used to instantiate theorems with hypotheses. -/
def cfgDemo : Config :=
  { active := true,
    userbot :=
      { apiId := some 1, apiHash := some ("h"), phone := some ("p"),
        userId := some 7, balance := 100, enabled := true },
    targetUserId := some 1,
    targetChatId := none,
    targets := [{ giftId := some 5000000001, maxPrice := 1000, giftName := "G", enabled := true }] }

/-- C10: for every delta and every current cached balance,
`change_balance_userbot` persists and returns `max 0 (current + delta)`,
so the stored balance is never negative afterwards. -/
theorem c10_change_balance_clamped (delta : Int) (config : Config) :
    (change_balance_userbot delta config).1 = max 0 (config.userbot.balance + delta) ∧
    (change_balance_userbot delta config).2.userbot.balance =
      max 0 (config.userbot.balance + delta) ∧
    0 ≤ (change_balance_userbot delta config).2.userbot.balance :=
  ⟨rfl, rfl, le_max_left 0 _⟩

/-- C9: when the cached configuration balance is strictly below the
expected price, `buy_resold_gift_userbot` returns False with zero
purchase calls issued, and the persisted configuration has
USERBOT.ENABLED = False (the system ACTIVE flag is untouched). -/
theorem c9_insufficient_cached_balance (config : Config) (clientOk : Bool)
    (target_user_id : Option Int) (target_chat_id : Option String)
    (expected_price : Int) (balance_before : Option Int) (obs : List AttemptObs)
    (h : config.userbot.balance < expected_price) :
    buy_resold_gift_userbot config clientOk target_user_id target_chat_id
        expected_price balance_before obs =
      ⟨false, 0, disable_userbot config⟩ ∧
    (disable_userbot config).userbot.enabled = false ∧
    (disable_userbot config).active = config.active := by
  refine ⟨?_, rfl, rfl⟩
  unfold buy_resold_gift_userbot
  simp [h]

/-- C9 witness: with cached balance 100 and expected price 150 the buy
function refuses up front. -/
theorem c9_witness :
    buy_resold_gift_userbot cfgDemo true (some 1) none 150 none [] =
      ⟨false, 0, disable_userbot cfgDemo⟩ :=
  (c9_insufficient_cached_balance cfgDemo true (some 1) none 150 none [] (by decide)).1

/-- C8: `refresh_balance` persists 0 and returns 0 when the resolved user
id is missing, the session fields (API_ID, API_HASH, PHONE) are not all
present, or the sender is not active; otherwise it persists and returns
the fetched authoritative balance. -/
theorem c8_refresh_balance_spec (userbotActive : Bool) (fetch : Option Int)
    (user_id : Option Nat) (config : Config) :
    ((resolve_user_id user_id config = none ∨ has_session config.userbot = false ∨
        userbotActive = false) →
      refresh_balance userbotActive fetch user_id config = (0, set_balance config 0)) ∧
    (∀ b, resolve_user_id user_id config ≠ none → has_session config.userbot = true →
      userbotActive = true → fetch = some b →
      refresh_balance userbotActive fetch user_id config = (b, set_balance config b)) := by
  constructor
  · intro h
    unfold refresh_balance
    rcases h with h | h | h
    · rw [h]
    · cases hr : resolve_user_id user_id config
      · rfl
      · simp [h]
    · cases hr : resolve_user_id user_id config
      · rfl
      · by_cases hs : has_session config.userbot = false <;> simp [hs, h]
  · intro b h1 h2 h3 h4
    unfold refresh_balance
    cases hr : resolve_user_id user_id config
    · exact absurd hr h1
    · simp [h2, h3, h4]

/-- C8 witness: a fully configured active session with fetch 42 persists
and returns 42. -/
theorem c8_witness :
    refresh_balance true (some 42) (some 7) cfgDemo = (42, set_balance cfgDemo 42) :=
  (c8_refresh_balance_spec true (some 42) (some 7) cfgDemo).2 42
    (by decide) (by decide) rfl rfl

/-- C1 (amended): for every expected price, a delta within distance 1 of
the expected price is classified success; any other strictly positive
delta is success-with-warning; any other delta (zero or negative, and at
distance more than 1 from the expected price) is failure, and a failed
attempt falls through to the remaining retries. The listed examples hold
once the expected price is at least 2: for expected price 1 a zero delta
already falls inside the tolerance branch and is classified success. -/
theorem c1_delta_classification (e d : Int) :
    ((d - e).natAbs ≤ 1 → classify_balance_diff d e = .success) ∧
    (¬ (d - e).natAbs ≤ 1 → d > 0 → classify_balance_diff d e = .successWarning) ∧
    (¬ (d - e).natAbs ≤ 1 → ¬ d > 0 → classify_balance_diff d e = .failure) ∧
    (∀ bb ba cb : Int, ∀ cfg : Config, ∀ rest : List AttemptObs,
      classify_balance_diff (bb - ba) e = .failure →
      (buy_attempt_loop e bb cb cfg (AttemptObs.purchased ba :: rest)).success =
        (buy_attempt_loop e bb cb cfg rest).success) ∧
    (2 ≤ e →
      classify_balance_diff (e - 1) e = .success ∧
      classify_balance_diff e e = .success ∧
      classify_balance_diff (e + 1) e = .success ∧
      classify_balance_diff 0 e = .failure ∧
      classify_balance_diff (e + 500) e = .successWarning) := by
  have hs : ∀ x : Int, (x - e).natAbs ≤ 1 → classify_balance_diff x e = .success := by
    intro x h; simp [classify_balance_diff, h]
  have hw : ∀ x : Int, ¬ (x - e).natAbs ≤ 1 → x > 0 →
      classify_balance_diff x e = .successWarning := by
    intro x h h2; simp [classify_balance_diff, h, h2]
  have hf : ∀ x : Int, ¬ (x - e).natAbs ≤ 1 → ¬ x > 0 →
      classify_balance_diff x e = .failure := by
    intro x h h2; simp [classify_balance_diff, h, h2]
  refine ⟨hs d, hw d, hf d, ?_, ?_⟩
  · intro bb ba cb cfg rest hc
    simp [buy_attempt_loop, hc]
  · intro he
    exact ⟨hs _ (by omega), hs _ (by omega), hs _ (by omega),
      hf _ (by omega) (by omega), hw _ (by omega) (by omega)⟩

/-- C1 witness: at expected price 10, delta 10 is success, delta 510 is
success-with-warning, delta 0 is failure. -/
theorem c1_witness :
    classify_balance_diff 10 10 = PurchaseClass.success ∧
    classify_balance_diff 510 10 = PurchaseClass.successWarning ∧
    classify_balance_diff 0 10 = PurchaseClass.failure :=
  ⟨(c1_delta_classification 10 10).1 (by decide),
   (c1_delta_classification 10 510).2.1 (by decide) (by decide),
   (c1_delta_classification 10 0).2.2.1 (by decide) (by decide)⟩

/-- C1 counterexample: at expected price 1 a zero balance delta is
classified success by the tolerance branch, where the claim requires any
zero delta to be classified failure. -/
theorem c1_counterexample :
    classify_balance_diff 0 1 = PurchaseClass.success ∧
    ¬ classify_balance_diff 0 1 = PurchaseClass.failure := by
  exact ⟨by decide, by decide⟩

/-- Any listing returned by the price-limited search is within the
limit: the search only returns a gift after checking `price <= mp`. -/
theorem search_loop_price_le (mp : Int) :
    ∀ listings g, (search_loop (some mp) listings).1 = some g → g.price ≤ mp := by
  intro listings
  induction listings with
  | nil => intro g h; simp [search_loop] at h
  | cons x rest ih =>
    intro g h
    by_cases hx : x.available_for_stars = true ∧ x.price > 0
    · by_cases hp : x.price ≤ mp
      · simp [search_loop, hx, hp] at h
        exact h ▸ hp
      · simp [search_loop, hx, hp] at h
    · simp [search_loop, hx] at h
      exact ih g h

/-- Any listing returned by `find_cheapest_gift_by_id` under a price
limit is within the limit. -/
theorem find_cheapest_price_le (ua en ck : Bool) (mp : Int)
    (listings : List ResaleGift) (g : ResaleGift)
    (h : find_cheapest_gift_by_id ua en ck (some mp) listings = some g) :
    g.price ≤ mp := by
  unfold find_cheapest_gift_by_id at h
  by_cases h1 : ua = false
  · simp [h1] at h
  by_cases h2 : en = false
  · simp [h1, h2] at h
  by_cases h3 : ck = false
  · simp [h1, h2, h3] at h
  simp [h1, h2, h3] at h
  exact search_loop_price_le mp listings g h

/-- The search skips ineligible listings, inspecting each one. -/
theorem search_loop_skip (mp : Option Int) (pre : List ResaleGift)
    (hpre : ∀ x ∈ pre, ¬ (x.available_for_stars = true ∧ x.price > 0))
    (rest : List ResaleGift) :
    search_loop mp (pre ++ rest) =
      ((search_loop mp rest).1, (search_loop mp rest).2 + pre.length) := by
  induction pre with
  | nil => simp
  | cons x xs ih =>
    have hx := hpre x (by simp)
    have hxs : ∀ y ∈ xs, ¬ (y.available_for_stars = true ∧ y.price > 0) :=
      fun y hy => hpre y (by simp [hy])
    have hr := ih hxs
    have hstep : search_loop mp ((x :: xs) ++ rest) =
        ((search_loop mp (xs ++ rest)).1, (search_loop mp (xs ++ rest)).2 + 1) := by
      simp only [List.cons_append]
      simp [search_loop, hx]
    rw [hstep, hr]
    simp [Nat.add_assoc]

/-- C3: the ceiling invariant — every cache entry with a present listing
has the listing's price within the max price of the entry's target
snapshot — is preserved by `update_target_cache` (the only writer besides
the cache clear), and holds of the cleared cache. -/
theorem c3_ceiling_invariant (ua en ck : Bool) (listings : List ResaleGift)
    (now : Nat) (cache : TargetsCache) (ti : Nat) (tgt : Target)
    (h : cache_invariant cache) :
    cache_invariant (update_target_cache ua en ck listings now cache ti tgt).1 ∧
    cache_invariant clear_targets_cache := by
  constructor
  · intro i e g hi hge
    unfold update_target_cache at hi
    cases hgid : tgt.giftId with
    | none =>
      rw [hgid] at hi
      exact h i e g hi hge
    | some gid =>
      rw [hgid] at hi
      by_cases hit : i = ti
      · simp only [hit, if_pos rfl] at hi
        cases hi
        exact find_cheapest_price_le ua en ck tgt.maxPrice listings g hge
      · simp only [if_neg hit] at hi
        exact h i e g hi hge
  · intro i e g hi _
    exact Option.noConfusion hi

/-- C3 witness: updating the empty cache with a cheap eligible listing
yields a cache satisfying the ceiling invariant. -/
theorem c3_witness :
    cache_invariant (update_target_cache true true true
      [{ price := 50, available_for_stars := true, name := "A", link := "LA" }] 0
      clear_targets_cache 0
      { giftId := some 5000000001, maxPrice := 1000, giftName := "G", enabled := true }).1 :=
  (c3_ceiling_invariant true true true
    [{ price := 50, available_for_stars := true, name := "A", link := "LA" }] 0
    clear_targets_cache 0
    { giftId := some 5000000001, maxPrice := 1000, giftName := "G", enabled := true }
    (fun _ _ _ hi _ => Option.noConfusion hi)).1

/-- C4: with the sender active and enabled and a client available, when
the price-ascending stream's first eligible listing `g` (available for
stars, price > 0), preceded by ineligible listings `pre`, exceeds the
target's max price, the search returns `None` after inspecting exactly
`pre.length + 1` listings (no listing after `g` is inspected, whatever
`post` holds) and the poller caches absence for the target; when `g` is
within the max price, it is returned and cached. -/
theorem c4_poller_ceiling (pre post : List ResaleGift) (g : ResaleGift)
    (now : Nat) (cache : TargetsCache) (ti : Nat) (tgt : Target) (gid : Nat)
    (hgid : tgt.giftId = some gid)
    (hpre : ∀ x ∈ pre, ¬ (x.available_for_stars = true ∧ x.price > 0))
    (hg : g.available_for_stars = true ∧ g.price > 0) :
    (g.price > tgt.maxPrice →
      find_cheapest_gift_by_id true true true (some tgt.maxPrice) (pre ++ g :: post) = none ∧
      (search_loop (some tgt.maxPrice) (pre ++ g :: post)).2 = pre.length + 1 ∧
      (update_target_cache true true true (pre ++ g :: post) now cache ti tgt).2 = none ∧
      ∃ e, (update_target_cache true true true (pre ++ g :: post) now cache ti tgt).1 ti =
              some e ∧ e.gift_data = none) ∧
    (g.price ≤ tgt.maxPrice →
      find_cheapest_gift_by_id true true true (some tgt.maxPrice) (pre ++ g :: post) = some g ∧
      (update_target_cache true true true (pre ++ g :: post) now cache ti tgt).2 = some g ∧
      ∃ e, (update_target_cache true true true (pre ++ g :: post) now cache ti tgt).1 ti =
              some e ∧ e.gift_data = some g) := by
  have hskip := search_loop_skip (some tgt.maxPrice) pre hpre (g :: post)
  constructor
  · intro hover
    have hnle : ¬ g.price ≤ tgt.maxPrice := not_le.mpr hover
    have hgres : search_loop (some tgt.maxPrice) (g :: post) = (none, 1) := by
      simp [search_loop, hg, hnle]
    have hfind : find_cheapest_gift_by_id true true true (some tgt.maxPrice)
        (pre ++ g :: post) = none := by
      unfold find_cheapest_gift_by_id
      simp [hskip, hgres]
    have hupd2 : (update_target_cache true true true (pre ++ g :: post) now cache ti tgt).2 =
        none := by
      unfold update_target_cache
      rw [hgid]
      exact hfind
    refine ⟨hfind, ?_, hupd2, ?_⟩
    · rw [hskip, hgres]
      omega
    · refine ⟨⟨none, now, ⟨gid, tgt.giftName, tgt.maxPrice⟩⟩, ?_, rfl⟩
      unfold update_target_cache
      rw [hgid]
      simp [hfind]
  · intro hle
    have hgres : search_loop (some tgt.maxPrice) (g :: post) = (some g, 1) := by
      simp [search_loop, hg, hle]
    have hfind : find_cheapest_gift_by_id true true true (some tgt.maxPrice)
        (pre ++ g :: post) = some g := by
      unfold find_cheapest_gift_by_id
      simp [hskip, hgres]
    have hupd2 : (update_target_cache true true true (pre ++ g :: post) now cache ti tgt).2 =
        some g := by
      unfold update_target_cache
      rw [hgid]
      exact hfind
    refine ⟨hfind, hupd2, ?_⟩
    refine ⟨⟨some g, now, ⟨gid, tgt.giftName, tgt.maxPrice⟩⟩, ?_, rfl⟩
    unfold update_target_cache
    rw [hgid]
    simp [hfind]

/-- A target with ceiling 1000, and a listing stream whose first eligible
listing costs 2000: a TON-only listing, the 2000-star listing, and a
further listing that must not be inspected. -/
def tgtDemo : Target :=
  { giftId := some 5000000001, maxPrice := 1000, giftName := "G", enabled := true }

def tonGift : ResaleGift :=
  { price := 900, available_for_stars := false, name := "T", link := "LT" }

def dearGift : ResaleGift :=
  { price := 2000, available_for_stars := true, name := "X", link := "LX" }

def postGift : ResaleGift :=
  { price := 2500, available_for_stars := true, name := "Y", link := "LY" }

/-- C4 witness: cheapest eligible listing 2000 against ceiling 1000 —
the search returns nothing after two inspections and the poller caches
absence. -/
theorem c4_witness :
    find_cheapest_gift_by_id true true true (some 1000)
        ([tonGift] ++ dearGift :: [postGift]) = none ∧
    (search_loop (some 1000) ([tonGift] ++ dearGift :: [postGift])).2 = 2 ∧
    (update_target_cache true true true ([tonGift] ++ dearGift :: [postGift]) 0
        clear_targets_cache 0 tgtDemo).2 = none ∧
    ∃ e, (update_target_cache true true true ([tonGift] ++ dearGift :: [postGift]) 0
        clear_targets_cache 0 tgtDemo).1 0 = some e ∧ e.gift_data = none :=
  (c4_poller_ceiling [tonGift] [postGift] dearGift 0 clear_targets_cache 0 tgtDemo
    5000000001 rfl (by decide) (by decide)).1 (by decide)

/-- C2 (amended): in every Executor candidate scan the Executor notifies
success for at most one candidate (success notified iff a purchase
succeeded), and stops scanning further candidates as soon as one purchase
succeeds — an attempted candidate whose purchase succeeds ends the scan
with exactly one purchase call regardless of the remaining candidates.
However, when an attempted purchase fails, the scan moves on to the next
candidate within the same cycle, so with N ≥ 2 affordable candidates the
cycle issues one purchase call per attempted candidate up to the first
success, not always exactly one. -/
theorem c2_at_most_one_purchase (b : Nat → Bool) (tu : Option Int) (tc : Option String)
    (gifts : List TargetGift) (i : Nat) (g : TargetGift) (rest : List TargetGift)
    (j : Nat) :
    (scan_candidates b tu tc gifts i).notifications ≤ 1 ∧
    ((scan_candidates b tu tc gifts i).purchased_any = true ↔
      (scan_candidates b tu tc gifts i).notifications = 1) ∧
    (candidate_attempted g tu tc → b j = true →
      scan_candidates b tu tc (g :: rest) j = ⟨1, 1, true⟩) ∧
    (candidate_attempted g tu tc → b j = false →
      scan_candidates b tu tc (g :: rest) j =
        ⟨(scan_candidates b tu tc rest (j + 1)).buyCalls + 1,
         (scan_candidates b tu tc rest (j + 1)).notifications,
         (scan_candidates b tu tc rest (j + 1)).purchased_any⟩) := by
  have key : ∀ (l : List TargetGift) (k : Nat),
      (scan_candidates b tu tc l k).notifications ≤ 1 ∧
      ((scan_candidates b tu tc l k).purchased_any = true ↔
        (scan_candidates b tu tc l k).notifications = 1) := by
    intro l
    induction l with
    | nil => intro k; simp [scan_candidates]
    | cons x xs ih =>
      intro k
      by_cases h1 : x.link = ""
      · simpa [scan_candidates, h1] using ih (k + 1)
      · by_cases h2 : x.price > x.target_max_price
        · simpa [scan_candidates, h1, h2] using ih (k + 1)
        · by_cases h3 : validate_gift_purchase x tu tc x.target_max_price = false
          · simpa [scan_candidates, h1, h2, h3] using ih (k + 1)
          · by_cases h4 : b k = true
            · simp [scan_candidates, h1, h2, h3, h4]
            · simpa [scan_candidates, h1, h2, h3, h4] using ih (k + 1)
  refine ⟨(key gifts i).1, (key gifts i).2, ?_, ?_⟩
  · rintro ⟨ha1, ha2, ha3⟩ hb
    simp [scan_candidates, ha1, ha2, ha3, hb]
  · rintro ⟨ha1, ha2, ha3⟩ hb
    simp [scan_candidates, ha1, ha2, ha3, hb]

/-- Two valid affordable candidates as the Executor sees them in one
cycle: distinct listings, both within their targets' ceilings. -/
def giftA : TargetGift :=
  { target_index := 0, target_gift_name := "G", target_max_price := 1000,
    price := 150, link := "https://t.me/nft/A-1", name := "A" }

def giftB : TargetGift :=
  { target_index := 1, target_gift_name := "G", target_max_price := 1000,
    price := 200, link := "https://t.me/nft/B-2", name := "B" }

/-- C2 witness: with two valid candidates and a first purchase that
succeeds, the scan issues exactly one purchase call, notifies once, and
never reaches the second candidate. -/
theorem c2_witness :
    scan_candidates (fun _ => true) (some 1) none [giftA, giftB] 0 = ⟨1, 1, true⟩ :=
  (c2_at_most_one_purchase (fun _ => true) (some 1) none [giftA, giftB] 0
    giftA [giftB] 0).2.2.1 (by decide) rfl

/-- C2 counterexample: a cycle whose cache scan yields two affordable
valid candidates and whose purchases fail issues two purchase calls, not
exactly one — the Executor moves to the next candidate in the same cycle
after a failed purchase. -/
theorem c2_counterexample :
    (gift_purchase_cycle cfgDemo true [giftA, giftB] (fun _ => false)
        none (some 500) 7).scanRes.buyCalls = 2 ∧
    ¬ (gift_purchase_cycle cfgDemo true [giftA, giftB] (fun _ => false)
        none (some 500) 7).scanRes.buyCalls = 1 := by
  exact ⟨by decide, by decide⟩

/-- C5: in a cycle where the system is active, the sender is active,
targets and a recipient are configured, candidates exist in the cache,
and no purchase succeeds, the Executor reconciles the balance; when the
reconciled balance is strictly below the cheapest candidate's price it
deactivates the system, notifies the operator, and breaks out of the
worker loop. -/
theorem c5_hard_stop_insufficient_balance (config : Config)
    (available : List TargetGift) (buySucceeds : Nat → Bool)
    (fetchAfterSuccess fetchReconcile : Option Int) (uid : Nat)
    (h1 : config.active = true)
    (h2 : ¬ enabled_targets config = [])
    (h3 : ¬ (config.targetUserId = none ∧ config.targetChatId = none))
    (h4 : ¬ available = [])
    (h5 : (scan_candidates buySucceeds config.targetUserId config.targetChatId
            available 0).purchased_any = false)
    (h6 : (refresh_balance true fetchReconcile (some uid) config).1 < min_price available) :
    (gift_purchase_cycle config true available buySucceeds fetchAfterSuccess
        fetchReconcile uid).reconciled = true ∧
    (gift_purchase_cycle config true available buySucceeds fetchAfterSuccess
        fetchReconcile uid).action = CycleAction.breakLoop ∧
    (gift_purchase_cycle config true available buySucceeds fetchAfterSuccess
        fetchReconcile uid).config.active = false ∧
    Notice.insufficientBalance ∈ (gift_purchase_cycle config true available buySucceeds
        fetchAfterSuccess fetchReconcile uid).notices := by
  unfold gift_purchase_cycle
  simp [h1, h2, h3, h4, h5, h6, set_active]

/-- C5 witness: cached-then-reconciled balance 100 against cheapest
candidate price 150 — the cycle reconciles, deactivates, notifies, and
terminates the loop. -/
theorem c5_witness :
    (gift_purchase_cycle cfgDemo true [giftA] (fun _ => false) none
        (some 100) 7).reconciled = true ∧
    (gift_purchase_cycle cfgDemo true [giftA] (fun _ => false) none
        (some 100) 7).action = CycleAction.breakLoop ∧
    (gift_purchase_cycle cfgDemo true [giftA] (fun _ => false) none
        (some 100) 7).config.active = false ∧
    Notice.insufficientBalance ∈ (gift_purchase_cycle cfgDemo true [giftA]
        (fun _ => false) none (some 100) 7).notices :=
  c5_hard_stop_insufficient_balance cfgDemo [giftA] (fun _ => false) none (some 100) 7
    rfl (by decide) (by decide) (by decide) (by decide) (by decide)

/-- C7 (amended): when the configuration contains no enabled targets, the
Executor cycle sleeps and retries: it continues to the next cycle with
the configuration unchanged (the system-active flag stays true), sends no
notification, and performs no reconciliation. The no-enabled-targets
condition only prevents the supervisor from starting the workers; inside
the Executor loop it is not a hard stop. -/
theorem c7_no_enabled_targets_idles (config : Config) (available : List TargetGift)
    (buySucceeds : Nat → Bool) (fetchAfterSuccess fetchReconcile : Option Int) (uid : Nat)
    (h1 : config.active = true)
    (h2 : enabled_targets config = []) :
    gift_purchase_cycle config true available buySucceeds fetchAfterSuccess
        fetchReconcile uid =
      ⟨CycleAction.continueLoop, config, ⟨0, 0, false⟩, false, []⟩ := by
  unfold gift_purchase_cycle
  simp [h1, h2]

/-- C7 witness: an active configuration with an empty target list makes
the cycle continue silently. -/
theorem c7_witness :
    gift_purchase_cycle { cfgDemo with targets := [] } true [giftA] (fun _ => false)
        none none 7 =
      ⟨CycleAction.continueLoop, { cfgDemo with targets := [] }, ⟨0, 0, false⟩, false, []⟩ :=
  c7_no_enabled_targets_idles { cfgDemo with targets := [] } [giftA] (fun _ => false)
    none none 7 rfl (by decide)

/-- C7 counterexample: with no enabled targets the cycle does not break
the loop, does not clear the system-active flag, and sends no
notification — contrary to the claimed fatal-to-run treatment. -/
theorem c7_counterexample :
    ¬ ((gift_purchase_cycle { cfgDemo with targets := [] } true [] (fun _ => false)
          none none 7).action = CycleAction.breakLoop) ∧
    ¬ ((gift_purchase_cycle { cfgDemo with targets := [] } true [] (fun _ => false)
          none none 7).config.active = false) ∧
    (gift_purchase_cycle { cfgDemo with targets := [] } true [] (fun _ => false)
        none none 7).notices = [] := by
  exact ⟨by decide, by decide, by decide⟩

/-- C6 (amended): every reachable state of the supervisor's tracked task
set has size at most 2 — start records exactly a fresh pair, stop clears
the set, and the completion callback removes a finished task (so the set
never retains one). The set can, however, be left at size 1: when one
worker task finishes (for example by an internal hard stop) while the
other keeps running, the callback removes only the finished task. -/
theorem c6_worker_set_bounded (s : Finset Nat) (h : Reachable s) : s.card ≤ 2 := by
  induction h with
  | init => simp
  | start s _ a b hab _ =>
    exact le_trans (Finset.card_insert_le a {b}) (by simp)
  | stop s _ _ => simp
  | done s _ t ih => exact le_trans (Finset.card_erase_le) ih

/-- C6 witness: the initial empty worker set is within the bound. -/
theorem c6_witness : (∅ : Finset Nat).card ≤ 2 :=
  c6_worker_set_bounded ∅ Reachable.init

/-- C6 counterexample: after a start records the pair {0, 1} and task 0
finishes (its completion callback discards it), the reachable tracked set
{1} has size 1, refuting the always-0-or-2 invariant. -/
theorem c6_counterexample :
    Reachable (({0, 1} : Finset Nat).erase 0) ∧
    ¬ ((({0, 1} : Finset Nat).erase 0).card = 0 ∨
        (({0, 1} : Finset Nat).erase 0).card = 2) := by
  constructor
  · exact Reachable.done {0, 1} (Reachable.start ∅ Reachable.init 0 1 (by decide)) 0
  · decide

end GiftsBot
